import Mathlib

/-!
Shallow embedding of the cloudtab frontend's task-tracking and request
pipeline core: the toast bridge (useApiErrorToast), the axios client's
error-message extraction and response interceptor (client.ts), the
notification bus (a JS Set of listeners with live forEach iteration), and
the adaptive task poller (useTaskPoller), together with theorems settling
the specification's claims against these definitions.
-/

namespace Cloudtab

/-- Toast severity, mirroring ToastType in Toast.tsx. -/
inductive ToastType
  | success
  | error
  | warning
  | info
deriving DecidableEq, Repr

/-- One addToast invocation: severity, message and display duration in ms. -/
structure ToastCall where
  ttype : ToastType
  message : String
  duration : Nat
deriving DecidableEq, Repr

/-- The listener installed by useApiErrorToast: maps a published
(message, status) pair to the addToast call it makes.  Branch order follows
the source exactly: first `status && status >= 500`, then `status === 409`,
then `status === 503`, else the default branch.  A status of `none` models
the JS value `undefined`; JS truthiness of a number is modelled as being
nonzero. -/
def useApiErrorToast (message : String) (status : Option Nat) : ToastCall :=
  match status with
  | some s =>
    if s ≠ 0 ∧ 500 ≤ s then ⟨.error, message, 8000⟩
    else if s = 409 then ⟨.warning, message, 6000⟩
    else if s = 503 then
      ⟨.error, "Service temporarily unavailable. Please try again.", 8000⟩
    else ⟨.error, message, 5000⟩
  | none => ⟨.error, message, 5000⟩

/-- C1: the claim says a 503 failure is bridged to a toast carrying the fixed
message "Service temporarily unavailable. Please try again.", overriding the
message extracted from the response body.  In the source the `status === 503`
branch is unreachable, because `status && status >= 500` also holds at 503 and
is tested first: at status 503 with extracted message "Database connection
lost" the bridge emits the extracted message, not the fixed one.  This
evaluates the embedded handler at that failing input. -/
theorem C1_503_uses_extracted_message :
    useApiErrorToast "Database connection lost" (some 503) =
      ⟨ToastType.error, "Database connection lost", 8000⟩ := by
  decide

/-! ## Axios client (client.ts): error extraction and response interceptor -/

/-- One entry of a structured `errors` list in an error body; both fields are
optional in the TS type (`field?: string; message?: string`). -/
structure ErrorsEntry where
  field : Option String
  message : Option String
deriving DecidableEq, Repr

/-- The parts of an error-response body that extractErrorMessage inspects:
`detail` is `some s` exactly when the body's detail field is the string `s`
(a missing or non-string detail behaves identically under the
`typeof data.detail === "string"` guard), and `errors` is `some l` exactly
when the body's errors field is a (truthy) array. -/
structure ErrorBody where
  detail : Option String
  errors : Option (List ErrorsEntry)
deriving DecidableEq, Repr

/-- An HTTP response attached to an axios error: its status and its body,
where `data = none` models a falsy `response.data`. -/
structure AxiosResponse where
  status : Nat
  data : Option ErrorBody
deriving DecidableEq, Repr

/-- The fields of an AxiosError the client inspects. `response = none` models
no response received (network failure / timeout); `code` is the axios error
code string when present; `message` is the error's own message
(the empty string modelling a falsy message). -/
structure AxiosErrorModel where
  response : Option AxiosResponse
  code : Option String
  message : String
deriving DecidableEq, Repr

/-- An arbitrary thrown value as seen by extractErrorMessage: either an axios
error or anything else (the `axios.isAxiosError` guard fails). -/
inductive ApiError
  | axiosErr (e : AxiosErrorModel)
  | nonAxios
deriving DecidableEq, Repr

/-- JS truthiness of a string-or-absent value: present and nonempty. -/
def truthyStr : Option String → Bool
  | some s => s != ""
  | none => false

/-- Rendering of one errors-list entry, following
`e.field ? `field: message` : e.message`: with a truthy field the template
literal stringifies a missing message as "undefined"; without one, the raw
(possibly missing) message is returned and `Array.join` renders a missing
value as the empty string. -/
def renderEntry (e : ErrorsEntry) : String :=
  if truthyStr e.field then
    e.field.getD "" ++ ": " ++
      (match e.message with
       | some m => m
       | none => "undefined")
  else
    match e.message with
    | some m => m
    | none => ""

/-- extractErrorMessage from client.ts, translated branch for branch. -/
def extractErrorMessage : ApiError → String
  | .nonAxios => "An unexpected error occurred"
  | .axiosErr e =>
    match e.response.bind (·.data) with
    | none =>
      if e.code = some "ERR_NETWORK" then "Network error — is the server running?"
      else if e.code = some "ECONNABORTED" then "Request timed out"
      else if e.message != "" then e.message
      else "An unexpected error occurred"
    | some d =>
      match d.detail with
      | some s => s
      | none =>
        match d.errors with
        | some entries => String.intercalate "; " (entries.map renderEntry)
        | none => "An unexpected error occurred"

/-- The status of an axios error, when a response exists. -/
def statusOf (e : AxiosErrorModel) : Option Nat :=
  e.response.map (·.status)

/-- The two credentials held in localStorage; `none` models an absent key. -/
structure Storage where
  accessToken : Option String
  refreshToken : Option String
deriving DecidableEq, Repr

/-- The request config carried by an axios error: its `_retry` marker
(truthiness of `originalRequest._retry`) and its Authorization header. -/
structure RequestConfig where
  retryFlag : Bool
  authHeader : Option String
deriving DecidableEq, Repr

/-- Outcome of the `POST /auth/refresh` call, when made. -/
inductive RefreshOutcome
  | refreshOk (newAccess newRefresh : String)
  | refreshFail
deriving DecidableEq, Repr

/-- Outcome of re-issuing the original request through the client: it either
resolves (abstracted to a numeric response id) or rejects with a new axios
error. -/
inductive RetryOutcome
  | retryOk (v : Nat)
  | retryErr (e : AxiosErrorModel)
deriving DecidableEq, Repr

/-- What the response interceptor's error handler hands back to the caller. -/
inductive InterceptResult
  | resolvedRetry (v : Nat)
  | rejected (e : AxiosErrorModel)
deriving DecidableEq, Repr

/-- Side effects the error handler performs: the final localStorage contents,
whether it navigated to /login, the (message, status) pairs published to the
notification bus, how many refresh calls it made, and the Authorization
header of each re-issued original request. -/
structure SideEffects where
  store : Storage
  redirectedToLogin : Bool
  published : List (String × Option Nat)
  refreshCalls : Nat
  retries : List (Option String)
deriving DecidableEq, Repr

/-- The response interceptor's rejection handler from client.ts.  The fuel
argument bounds the re-entry depth: `return client(originalRequest)` sends
the re-issued request back through this same interceptor, with the mutated
config (`_retry = true`), the updated storage and that retry's own error.
A fall-through 401 branch (missing or failed refresh) clears credentials,
redirects, skips publication (status is 401) and rejects; every non-401
failure is published as (extracted message, status) and rejected. -/
def interceptFuel : Nat → Storage → RequestConfig → AxiosErrorModel →
    RefreshOutcome → RetryOutcome → InterceptResult × SideEffects
  | 0, st, _, e, _, _ => (.rejected e, ⟨st, false, [], 0, []⟩)
  | Nat.succ fuel, st, cfg, e, refresh, retry =>
    if statusOf e = some 401 ∧ cfg.retryFlag = false then
      let cfg1 : RequestConfig := { cfg with retryFlag := true }
      if truthyStr st.refreshToken then
        match refresh with
        | .refreshOk na nr =>
          let st1 : Storage := ⟨some na, some nr⟩
          let cfg2 : RequestConfig := { cfg1 with authHeader := some ("Bearer " ++ na) }
          match retry with
          | .retryOk v => (.resolvedRetry v, ⟨st1, false, [], 1, [cfg2.authHeader]⟩)
          | .retryErr e2 =>
            let r := interceptFuel fuel st1 cfg2 e2 refresh retry
            (r.1, { r.2 with refreshCalls := r.2.refreshCalls + 1,
                             retries := cfg2.authHeader :: r.2.retries })
        | .refreshFail =>
          (.rejected e, ⟨⟨none, none⟩, true, [], 1, []⟩)
      else
        (.rejected e, ⟨⟨none, st.refreshToken⟩, true, [], 0, []⟩)
    else
      (.rejected e,
        ⟨st, false,
          if statusOf e ≠ some 401 then [(extractErrorMessage (.axiosErr e), statusOf e)]
          else [],
          0, []⟩)

/-- The interceptor at the depth that actually occurs: one original failure
plus at most one re-issued request (the `_retry` flag prevents anything
deeper). -/
def interceptError (st : Storage) (cfg : RequestConfig) (e : AxiosErrorModel)
    (refresh : RefreshOutcome) (retry : RetryOutcome) :
    InterceptResult × SideEffects :=
  interceptFuel 2 st cfg e refresh retry

/-- C3: on a 401 not yet retried, with a (truthy) stored refresh credential and
a successful refresh, the interceptor persists the new access and refresh
credentials, re-issues the original call exactly once with the new bearer
header, and returns that retry's outcome (resolution or rejection) to the
original caller; in every case — including a second 401 on the retried call —
exactly one refresh call is made. -/
theorem C3_refresh_success_retries_once (st : Storage) (cfg : RequestConfig)
    (e : AxiosErrorModel) (na nr : String) (retry : RetryOutcome)
    (h401 : statusOf e = some 401) (hflag : cfg.retryFlag = false)
    (href : truthyStr st.refreshToken = true) :
    (interceptError st cfg e (.refreshOk na nr) retry).2.store = ⟨some na, some nr⟩ ∧
    (interceptError st cfg e (.refreshOk na nr) retry).2.refreshCalls = 1 ∧
    (interceptError st cfg e (.refreshOk na nr) retry).2.retries =
      [some ("Bearer " ++ na)] ∧
    (interceptError st cfg e (.refreshOk na nr) retry).1 =
      (match retry with
       | .retryOk v => .resolvedRetry v
       | .retryErr e2 => .rejected e2) := by
  cases retry <;>
    simp [interceptError, interceptFuel, h401, hflag, href]

/-- C3 witness: a concrete 401 with a stored refresh token, a successful
refresh, and a retry that fails again with 401; the new tokens are stored,
one refresh call is made, one retry is issued with the new header, and the
retry's rejection is returned. -/
theorem C3_refresh_success_retries_once_witness :
    (interceptError ⟨some "a0", some "r0"⟩ ⟨false, some "Bearer a0"⟩
        ⟨some ⟨401, none⟩, none, "Unauthorized"⟩
        (.refreshOk "a1" "r1")
        (.retryErr ⟨some ⟨401, none⟩, none, "Unauthorized"⟩)).2.store =
      ⟨some "a1", some "r1"⟩ ∧
    (interceptError ⟨some "a0", some "r0"⟩ ⟨false, some "Bearer a0"⟩
        ⟨some ⟨401, none⟩, none, "Unauthorized"⟩
        (.refreshOk "a1" "r1")
        (.retryErr ⟨some ⟨401, none⟩, none, "Unauthorized"⟩)).2.refreshCalls = 1 ∧
    (interceptError ⟨some "a0", some "r0"⟩ ⟨false, some "Bearer a0"⟩
        ⟨some ⟨401, none⟩, none, "Unauthorized"⟩
        (.refreshOk "a1" "r1")
        (.retryErr ⟨some ⟨401, none⟩, none, "Unauthorized"⟩)).2.retries =
      [some ("Bearer " ++ "a1")] ∧
    (interceptError ⟨some "a0", some "r0"⟩ ⟨false, some "Bearer a0"⟩
        ⟨some ⟨401, none⟩, none, "Unauthorized"⟩
        (.refreshOk "a1" "r1")
        (.retryErr ⟨some ⟨401, none⟩, none, "Unauthorized"⟩)).1 =
      .rejected ⟨some ⟨401, none⟩, none, "Unauthorized"⟩ :=
  C3_refresh_success_retries_once ⟨some "a0", some "r0"⟩ ⟨false, some "Bearer a0"⟩
    ⟨some ⟨401, none⟩, none, "Unauthorized"⟩ "a1" "r1"
    (.retryErr ⟨some ⟨401, none⟩, none, "Unauthorized"⟩)
    (by decide) rfl rfl

/-- C10: a 401 on a call already marked retried performs no refresh, leaves
storage untouched, does not redirect, publishes nothing, and simply rejects
with that same error. -/
theorem C10_second_401_rejects_silently (st : Storage) (cfg : RequestConfig)
    (e : AxiosErrorModel) (refresh : RefreshOutcome) (retry : RetryOutcome)
    (h401 : statusOf e = some 401) (hflag : cfg.retryFlag = true) :
    interceptError st cfg e refresh retry =
      (.rejected e, ⟨st, false, [], 0, []⟩) := by
  simp [interceptError, interceptFuel, h401, hflag]

/-- C10 witness: a concrete already-retried 401 rejects with no side effects. -/
theorem C10_second_401_rejects_silently_witness :
    interceptError ⟨some "a1", some "r1"⟩ ⟨true, some "Bearer a1"⟩
        ⟨some ⟨401, none⟩, none, "Unauthorized"⟩ .refreshFail
        (.retryOk 0) =
      (.rejected ⟨some ⟨401, none⟩, none, "Unauthorized"⟩,
        ⟨⟨some "a1", some "r1"⟩, false, [], 0, []⟩) :=
  C10_second_401_rejects_silently ⟨some "a1", some "r1"⟩ ⟨true, some "Bearer a1"⟩
    ⟨some ⟨401, none⟩, none, "Unauthorized"⟩ .refreshFail (.retryOk 0)
    (by decide) rfl

/-- The message-priority rule exactly as claim C7 states it (spec-side
definition, for comparison with extractErrorMessage): a string detail field;
else the joined errors list; else a network/timeout-specific message when no
response body exists; else a generic fallback. -/
def messagePriorityClaimed (err : ApiError) : String :=
  match err with
  | .nonAxios => "An unexpected error occurred"
  | .axiosErr e =>
    match (e.response.bind (·.data)).bind (·.detail) with
    | some s => s
    | none =>
      match (e.response.bind (·.data)).bind (·.errors) with
      | some entries => String.intercalate "; " (entries.map renderEntry)
      | none =>
        if e.response.bind (·.data) = none then
          if e.code = some "ERR_NETWORK" then "Network error — is the server running?"
          else if e.code = some "ECONNABORTED" then "Request timed out"
          else "An unexpected error occurred"
        else "An unexpected error occurred"

/-- The message-priority rule as amended: identical to the claimed priority
except that, for an error with no response body that is neither a network
nor a timeout error, the error's own nonempty message takes priority over
the generic fallback (spec-side definition, for comparison with
extractErrorMessage). -/
def messagePriorityAmended (err : ApiError) : String :=
  match err with
  | .nonAxios => "An unexpected error occurred"
  | .axiosErr e =>
    match (e.response.bind (·.data)).bind (·.detail) with
    | some s => s
    | none =>
      match (e.response.bind (·.data)).bind (·.errors) with
      | some entries => String.intercalate "; " (entries.map renderEntry)
      | none =>
        if e.response.bind (·.data) = none then
          if e.code = some "ERR_NETWORK" then "Network error — is the server running?"
          else if e.code = some "ECONNABORTED" then "Request timed out"
          else if e.message != "" then e.message
          else "An unexpected error occurred"
        else "An unexpected error occurred"

/-- C7 counterexample: an axios error with no response, an error code that is
neither ERR_NETWORK nor ECONNABORTED, and a nonempty message.  The claimed
priority yields the generic fallback, but the code returns the error's own
message "socket hang up", so the claimed priority misdescribes the code. -/
theorem C7_counterexample_message_fallback :
    extractErrorMessage (.axiosErr ⟨none, some "ERR_OTHER", "socket hang up"⟩) =
      "socket hang up" ∧
    messagePriorityClaimed (.axiosErr ⟨none, some "ERR_OTHER", "socket hang up"⟩) =
      "An unexpected error occurred" ∧
    "socket hang up" ≠ "An unexpected error occurred" := by
  refine ⟨rfl, rfl, by decide⟩

/-- Every (message, status) pair the interceptor publishes, at any re-entry
depth, has a status other than 401. -/
lemma interceptFuel_published_ne_401 (fuel : Nat) :
    ∀ (st : Storage) (cfg : RequestConfig) (e : AxiosErrorModel)
      (refresh : RefreshOutcome) (retry : RetryOutcome) (p : String × Option Nat),
      p ∈ (interceptFuel fuel st cfg e refresh retry).2.published → p.2 ≠ some 401 := by
  induction fuel with
  | zero =>
    intro st cfg e refresh retry p hp
    simp [interceptFuel] at hp
  | succ n ih =>
    intro st cfg e refresh retry p hp
    by_cases h4 : statusOf e = some 401
    · by_cases hf : cfg.retryFlag = false
      · by_cases ht : truthyStr st.refreshToken = true
        · cases refresh with
          | refreshOk na nr =>
            cases retry with
            | retryOk v => simp [interceptFuel, h4, hf, ht] at hp
            | retryErr e2 =>
              simp [interceptFuel, h4, hf, ht] at hp
              exact ih _ _ e2 _ _ p hp
          | refreshFail => simp [interceptFuel, h4, hf, ht] at hp
        · simp [interceptFuel, h4, hf, ht] at hp
      · simp [interceptFuel, h4, hf] at hp
    · simp [interceptFuel, h4] at hp
      rw [hp]
      simpa using h4

/-- C7 (amended): the extracted message follows the amended priority (detail;
else joined errors; else a network/timeout-specific message when no body
exists; else the error's own nonempty message; else a generic fallback);
every failed call whose status is not 401 is published to the bus exactly as
(extracted message, status); and no published pair ever carries status 401. -/
theorem C7_classification_and_publication :
    (∀ err, extractErrorMessage err = messagePriorityAmended err) ∧
    (∀ (st : Storage) (cfg : RequestConfig) (e : AxiosErrorModel)
       (refresh : RefreshOutcome) (retry : RetryOutcome),
       statusOf e ≠ some 401 →
       (interceptError st cfg e refresh retry).2.published =
         [(extractErrorMessage (.axiosErr e), statusOf e)]) ∧
    (∀ (st : Storage) (cfg : RequestConfig) (e : AxiosErrorModel)
       (refresh : RefreshOutcome) (retry : RetryOutcome) (p : String × Option Nat),
       p ∈ (interceptError st cfg e refresh retry).2.published → p.2 ≠ some 401) := by
  refine ⟨?_, ?_, ?_⟩
  · intro err
    cases err with
    | nonAxios => rfl
    | axiosErr e =>
      rcases e with ⟨resp, code, msg⟩
      cases resp with
      | none => rfl
      | some r =>
        rcases r with ⟨stat, dat⟩
        cases dat with
        | none => rfl
        | some d =>
          rcases d with ⟨det, errs⟩
          cases det with
          | some s => rfl
          | none =>
            cases errs with
            | some l => rfl
            | none => rfl
  · intro st cfg e refresh retry h
    have hc : ¬(statusOf e = some 401 ∧ cfg.retryFlag = false) := fun hc => h hc.1
    simp [interceptError, interceptFuel, hc, h]
  · intro st cfg e refresh retry p hp
    exact interceptFuel_published_ne_401 2 st cfg e refresh retry p hp

/-- C7 witness: a concrete body with detail "boom" and status 500 follows the
amended priority, is published as ("boom", some 500), and that published
status is not 401. -/
theorem C7_classification_and_publication_witness :
    extractErrorMessage
        (.axiosErr ⟨some ⟨500, some ⟨some "boom", none⟩⟩, none, ""⟩) =
      messagePriorityAmended
        (.axiosErr ⟨some ⟨500, some ⟨some "boom", none⟩⟩, none, ""⟩) ∧
    (interceptError ⟨none, none⟩ ⟨false, none⟩
        ⟨some ⟨500, some ⟨some "boom", none⟩⟩, none, ""⟩
        .refreshFail (.retryOk 0)).2.published = [("boom", some 500)] ∧
    (("boom", some 500) : String × Option Nat).2 ≠ some 401 :=
  ⟨C7_classification_and_publication.1 _,
   C7_classification_and_publication.2.1 ⟨none, none⟩ ⟨false, none⟩
     ⟨some ⟨500, some ⟨some "boom", none⟩⟩, none, ""⟩ .refreshFail (.retryOk 0)
     (by decide),
   C7_classification_and_publication.2.2 ⟨none, none⟩ ⟨false, none⟩
     ⟨some ⟨500, some ⟨some "boom", none⟩⟩, none, ""⟩ .refreshFail (.retryOk 0)
     ("boom", some 500) (by decide)⟩

/-! ## Notification bus: the JS Set of error listeners and its forEach

Listeners are abstracted to numeric ids; the set is its insertion-ordered
list of distinct ids.  A listener's behaviour during a publish is the list
of subscribe/unsubscribe operations it performs on the bus. -/

/-- A bus operation a listener may perform from within a notification
handler: `sub` models `onApiError` (Set.add, appending a fresh element at
the end, a no-op on a present one) and `unsub` models the returned
unsubscribe (Set.delete). -/
inductive BusOp
  | sub (i : Nat)
  | unsub (i : Nat)
deriving DecidableEq, Repr

/-- One bus operation applied during an in-progress forEach.  The state is
(done, todo): the already-visited listeners still in the set, and the not
yet visited ones; the set's insertion order is done ++ todo.  An add of a
present element is a no-op; a fresh element is appended at the end (so it
will still be visited); a delete removes the element wherever it stands
(a deleted not-yet-visited listener is never called), matching the JS
Set.forEach mutation semantics. -/
def applyOp (p : List Nat × List Nat) (op : BusOp) : List Nat × List Nat :=
  match op with
  | .sub y => if y ∈ p.1 ∨ y ∈ p.2 then p else (p.1, p.2 ++ [y])
  | .unsub y => (p.1.filter (fun i => i != y), p.2.filter (fun i => i != y))

/-- The live forEach of `notifyError`: call the next pending listener, apply
the bus operations it performs, and continue on the mutated set.  Returns
the listeners that received the event, in call order.  The fuel bounds the
number of calls (a listener chain that keeps subscribing fresh listeners
diverges in JS too); all theorems supply sufficient fuel. -/
def publishLoop (beh : Nat → List BusOp) : Nat → List Nat → List Nat → List Nat
  | 0, _, _ => []
  | Nat.succ _, _, [] => []
  | Nat.succ fuel, done, x :: rest =>
    let p := (beh x).foldl applyOp (done ++ [x], rest)
    x :: publishLoop beh fuel p.1 p.2

/-- notifyError's fan-out, abstracted to which listeners receive the event:
a live iteration over the subscriber set starting from its current
contents. -/
def publishRecipients (beh : Nat → List BusOp) (listeners : List Nat)
    (fuel : Nat) : List Nat :=
  publishLoop beh fuel [] listeners

/-- Modelled from the spec: copy-on-publish iteration, as the claim requires
— the recipients are exactly the snapshot of the subscriber set taken when
publish starts, unaffected by any mutation a listener performs. -/
def publishRecipientsCopy (listeners : List Nat) : List Nat :=
  listeners

/-- C9 counterexample: with subscriber set [0] where listener 0 subscribes
listener 1 during the publish, the live iteration of the code delivers the
event to [0, 1], while copy-on-publish iteration would deliver it to [0]
only: a subscribe performed from within a listener does change which
listeners receive that event. -/
theorem C9_counterexample_live_iteration :
    publishRecipients (fun i => if i = 0 then [BusOp.sub 1] else []) [0] 2 = [0, 1] ∧
    publishRecipientsCopy [0] = [0] ∧
    ([0, 1] : List Nat) ≠ [0] := by
  refine ⟨by decide, rfl, by decide⟩

/-- A publish over listeners that perform no bus operations calls exactly the
pending listeners, given sufficient fuel. -/
lemma publishLoop_pure (beh : Nat → List BusOp) :
    ∀ (todo done : List Nat) (fuel : Nat), (∀ i ∈ todo, beh i = []) →
      todo.length ≤ fuel → publishLoop beh fuel done todo = todo := by
  intro todo
  induction todo with
  | nil =>
    intro done fuel _ _
    cases fuel with
    | zero => rfl
    | succ n => rfl
  | cons x rest ih =>
    intro done fuel hb hf
    cases fuel with
    | zero => exact absurd hf (by simp)
    | succ n =>
      have hx : beh x = [] := hb x (by simp)
      have hrest : ∀ i ∈ rest, beh i = [] := fun i hi => hb i (by simp [hi])
      have hn : rest.length ≤ n := Nat.succ_le_succ_iff.mp (by simpa using hf)
      simp [publishLoop, hx, ih (done ++ [x]) n hrest hn]

/-- C9 (amended): publish iterates over the live subscriber set.  When the
first listener subscribes a fresh listener during the publish, that listener
also receives the event, at the end of the call order; when the first
listener unsubscribes a not-yet-visited listener, that listener does not
receive the event.  (Listeners other than the first are passive here.) -/
theorem C9_amended_live_set_semantics (x y z : Nat) (rest : List Nat)
    (behS behU : Nat → List BusOp)
    (hx : x ∉ rest) (hyx : y ≠ x) (hyr : y ∉ rest) (hzx : z ≠ x)
    (hSx : behS x = [BusOp.sub y]) (hS : ∀ i, i ≠ x → behS i = [])
    (hUx : behU x = [BusOp.unsub z]) (hU : ∀ i, i ≠ x → behU i = []) :
    publishRecipients behS (x :: rest) (rest.length + 2) = x :: (rest ++ [y]) ∧
    publishRecipients behU (x :: rest) (rest.length + 2) =
      x :: rest.filter (fun i => i != z) := by
  constructor
  · have hyn : ¬(y ∈ [x] ∨ y ∈ rest) := by
      rintro (h | h)
      · simp at h; exact hyx h
      · exact hyr h
    have hpure : ∀ i ∈ rest ++ [y], behS i = [] := by
      intro i hi
      rcases List.mem_append.mp hi with h | h
      · exact hS i (fun he => hx (he ▸ h))
      · simp at h
        exact hS i (h ▸ hyx)
    have hlen : (rest ++ [y]).length ≤ rest.length + 1 := by simp
    simp [publishRecipients, publishLoop, hSx, applyOp, hyx, hyr,
      publishLoop_pure behS (rest ++ [y]) [x] (rest.length + 1) hpure hlen]
  · have hfilter : ([x].filter (fun i => i != z)) = [x] := by
      have hb : (x != z) = true := by simpa [bne_iff_ne] using hzx.symm
      simp [List.filter, hb]
    have hpure : ∀ i ∈ rest.filter (fun i => i != z), behU i = [] := by
      intro i hi
      exact hU i (fun he => hx (he ▸ List.mem_of_mem_filter hi))
    have hlen : (rest.filter (fun i => i != z)).length ≤ rest.length + 1 :=
      le_trans (List.length_filter_le _ _) (Nat.le_succ _)
    simp [publishRecipients, publishLoop, hUx, applyOp, hfilter,
      publishLoop_pure behU (rest.filter (fun i => i != z)) [x]
        (rest.length + 1) hpure hlen]

/-- C9 witness: with set [0, 2, 3], a first listener that subscribes 1
delivers to [0, 2, 3, 1]; a first listener that unsubscribes 2 delivers to
[0, 3]. -/
theorem C9_amended_live_set_semantics_witness :
    publishRecipients (fun i => if i = 0 then [BusOp.sub 1] else []) [0, 2, 3] 4 =
      [0, 2, 3, 1] ∧
    publishRecipients (fun i => if i = 0 then [BusOp.unsub 2] else []) [0, 2, 3] 4 =
      [0, 3] := by
  have h := C9_amended_live_set_semantics 0 1 2 [2, 3]
    (fun i => if i = 0 then [BusOp.sub 1] else [])
    (fun i => if i = 0 then [BusOp.unsub 2] else [])
    (by decide) (by decide) (by decide) (by decide)
    (by decide) (fun i hi => by simp [hi])
    (by decide) (fun i hi => by simp [hi])
  exact ⟨h.1, h.2⟩

/-! ## Task poller (useTaskPoller): an event-loop machine for one session

A poll session is modelled as a small-step machine over the state the effect
closes over.  `fireFn` is the synchronous prefix of `poll()` up to issuing
the lookup (the timeout check), `resolveFn` is the continuation that runs
when `getTaskStatus` settles (including the cancellation guards), and
`cancelFn` is the effect cleanup (`cancelled = true; clearTimeout(timerId)`),
run on `reset()` or teardown.  JS timers and awaits give the step rules:
only a pending, uncleared timer can fire, and only an in-flight lookup can
resolve.  Time is a rational wall clock that never decreases. -/

/-- Poller options; intervals and the timeout are JS numbers, modelled as
rationals; maxErrors is integral. -/
structure PollerOptions where
  initialInterval : ℚ
  maxInterval : ℚ
  backoffFactor : ℚ
  timeout : ℚ
  maxErrors : Nat
deriving DecidableEq, Repr

/-- The DEFAULTS object of the source: 1000 ms initial interval, 10000 ms max
interval, backoff factor 1.5, 300000 ms timeout, 10 max errors. -/
def DEFAULTS : PollerOptions :=
  { initialInterval := 1000, maxInterval := 10000, backoffFactor := 3 / 2,
    timeout := 300000, maxErrors := 10 }

/-- The part of a TaskStatus the poller's control flow reads: its status
string (compared with "success", "failed" and "running"). -/
structure TaskStatusM where
  status : String
deriving DecidableEq, Repr

/-- Outcome of one getTaskStatus call: it resolves with a task status or
rejects (network/server error). -/
inductive LookupResult
  | succeeds (t : TaskStatusM)
  | fails
deriving DecidableEq, Repr

/-- The state of one poll session: the React state (task, isPolling, error),
the refs (intervalMs, errorCount, startTime), the effect-scope cancellation
flag and timer, whether a lookup is in flight, and instrumentation: the
onComplete invocations made and the wall-clock times at which lookups were
issued. -/
structure PollerState where
  task : Option TaskStatusM
  isPolling : Bool
  error : Option String
  intervalMs : ℚ
  errorCount : Nat
  startTime : ℚ
  cancelled : Bool
  timerPending : Bool
  inflight : Bool
  completions : List TaskStatusM
  lookupsIssued : List ℚ
  now : ℚ
deriving DecidableEq, Repr

/-- The session right after startPolling(id) ran and the effect began: state
reset, refs reset, polling active, and the immediate first invocation of
poll() modelled as a due timer. -/
def initState (opts : PollerOptions) (t0 : ℚ) : PollerState :=
  { task := none, isPolling := true, error := none,
    intervalMs := opts.initialInterval, errorCount := 0, startTime := t0,
    cancelled := false, timerPending := true, inflight := false,
    completions := [], lookupsIssued := [], now := t0 }

/-- poll() up to its suspension point, invoked at wall time t: first the
elapsed-time check — on timeout, report the timeout error and stop polling
without any network call; otherwise issue the lookup (now in flight). -/
def fireFn (opts : PollerOptions) (s : PollerState) (t : ℚ) : PollerState :=
  if t - s.startTime > opts.timeout then
    { s with now := t, timerPending := false,
             error := some "Task polling timed out", isPolling := false }
  else
    { s with now := t, timerPending := false, inflight := true,
             lookupsIssued := s.lookupsIssued ++ [t] }

/-- The continuation of poll() when the lookup settles at wall time t: if the
session was cancelled while the lookup was in flight, return without touching
anything (the guards at the top of the try and catch blocks); otherwise store
the task and reset the error count on success, stop and fire onComplete on a
terminal status, tighten the interval on "running", back off and count the
error on failure, stop on error-budget exhaustion, and in the continuing
cases schedule the next attempt. -/
def resolveFn (opts : PollerOptions) (s : PollerState) (t : ℚ)
    (res : LookupResult) : PollerState :=
  let s0 := { s with now := t, inflight := false }
  if s.cancelled = true then s0
  else
    match res with
    | .succeeds st =>
      let s1 := { s0 with task := some st, errorCount := 0 }
      if st.status = "success" ∨ st.status = "failed" then
        { s1 with isPolling := false, completions := s.completions ++ [st] }
      else if st.status = "running" then
        { s1 with intervalMs := max opts.initialInterval (s.intervalMs * (4 / 5)),
                  timerPending := true }
      else
        { s1 with timerPending := true }
    | .fails =>
      let n := s.errorCount + 1
      if opts.maxErrors ≤ n then
        { s0 with errorCount := n,
                  error := some ("Task polling failed after " ++
                    toString opts.maxErrors ++ " attempts"),
                  isPolling := false }
      else
        { s0 with errorCount := n,
                  intervalMs := min (s.intervalMs * opts.backoffFactor)
                    opts.maxInterval,
                  timerPending := true }

/-- The effect cleanup (run by reset() or teardown): set the cancellation
flag and clear the pending timer. -/
def cancelFn (s : PollerState) : PollerState :=
  { s with cancelled := true, timerPending := false }

/-- One event-loop step of a session: a pending timer fires (cleared timers
cannot fire), an in-flight lookup settles, or the session is cancelled.
Wall time never decreases. -/
inductive Step (opts : PollerOptions) : PollerState → PollerState → Prop
  | fire (s : PollerState) (t : ℚ) (hp : s.timerPending = true) (ht : s.now ≤ t) :
      Step opts s (fireFn opts s t)
  | resolve (s : PollerState) (t : ℚ) (res : LookupResult)
      (hp : s.inflight = true) (ht : s.now ≤ t) :
      Step opts s (resolveFn opts s t res)
  | cancel (s : PollerState) : Step opts s (cancelFn s)

/-- The states one session can reach from start(taskId) at wall time t0. -/
def Reachable (opts : PollerOptions) (t0 : ℚ) (s : PollerState) : Prop :=
  Relation.ReflTransGen (Step opts) (initState opts t0) s

/-- The session invariant: the start time is fixed; every issued lookup
passed the elapsed-time check; a timer and an in-flight lookup never coexist;
a cancelled session has no pending timer; onComplete ran at most once, only
with terminal statuses, and once it ran the session is quiescent (no timer,
nothing in flight). -/
structure Inv (opts : PollerOptions) (t0 : ℚ) (s : PollerState) : Prop where
  startEq : s.startTime = t0
  lookupsBounded : ∀ t ∈ s.lookupsIssued, t - t0 ≤ opts.timeout
  notBoth : ¬(s.timerPending = true ∧ s.inflight = true)
  cancelNoTimer : s.cancelled = true → s.timerPending = false
  completeOnce : s.completions.length ≤ 1
  completeTerminal :
    s.completions.all
      (fun st => st.status == "success" || st.status == "failed") = true
  completeQuiesce : s.completions ≠ [] →
    s.timerPending = false ∧ s.inflight = false

lemma Inv_init (opts : PollerOptions) (t0 : ℚ) : Inv opts t0 (initState opts t0) := by
  constructor <;> simp [initState]

lemma Inv_fire (opts : PollerOptions) (t0 : ℚ) (s : PollerState) (t : ℚ)
    (inv : Inv opts t0 s) (hp : s.timerPending = true) :
    Inv opts t0 (fireFn opts s t) := by
  have hcomp : s.completions = [] := by
    by_contra h
    have hq := (inv.completeQuiesce h).1
    rw [hq] at hp
    exact Bool.false_ne_true hp
  by_cases hto : t - s.startTime > opts.timeout
  · constructor
    · simpa [fireFn, hto] using inv.startEq
    · simpa [fireFn, hto] using inv.lookupsBounded
    · simp [fireFn, hto]
    · simp [fireFn, hto]
    · simpa [fireFn, hto] using inv.completeOnce
    · simpa [fireFn, hto] using inv.completeTerminal
    · simp [fireFn, hto, hcomp]
  · constructor
    · simpa [fireFn, hto] using inv.startEq
    · intro u hu
      simp [fireFn, hto] at hu
      rcases hu with hu | hu
      · exact inv.lookupsBounded u hu
      · subst hu
        calc u - t0 = u - s.startTime := by rw [inv.startEq]
        _ ≤ opts.timeout := not_lt.mp hto
    · simp [fireFn, hto]
    · simp [fireFn, hto]
    · simpa [fireFn, hto] using inv.completeOnce
    · simpa [fireFn, hto] using inv.completeTerminal
    · simp [fireFn, hto, hcomp]

lemma Inv_resolve (opts : PollerOptions) (t0 : ℚ) (s : PollerState) (t : ℚ)
    (res : LookupResult) (inv : Inv opts t0 s) (hp : s.inflight = true) :
    Inv opts t0 (resolveFn opts s t res) := by
  have htimer : s.timerPending = false := by
    rcases Bool.eq_false_or_eq_true s.timerPending with h | h
    · exact absurd ⟨h, hp⟩ inv.notBoth
    · exact h
  have hcomp : s.completions = [] := by
    by_contra h
    have hq := (inv.completeQuiesce h).2
    rw [hq] at hp
    exact Bool.false_ne_true hp
  by_cases hc : s.cancelled = true
  · constructor
    · simpa [resolveFn, hc] using inv.startEq
    · simpa [resolveFn, hc] using inv.lookupsBounded
    · simp [resolveFn, hc, htimer]
    · simp [resolveFn, hc, htimer]
    · simpa [resolveFn, hc] using inv.completeOnce
    · simpa [resolveFn, hc] using inv.completeTerminal
    · simp [resolveFn, hc, hcomp]
  · have hcf : s.cancelled = false := by
      rcases Bool.eq_false_or_eq_true s.cancelled with h | h
      · exact absurd h hc
      · exact h
    cases res with
    | succeeds st =>
      by_cases hterm : st.status = "success" ∨ st.status = "failed"
      · constructor
        · simpa [resolveFn, hc, hterm] using inv.startEq
        · simpa [resolveFn, hc, hterm] using inv.lookupsBounded
        · simp [resolveFn, hc, hterm, htimer]
        · simp [resolveFn, hc, hterm, hcf]
        · simp [resolveFn, hc, hterm, hcomp]
        · rcases hterm with h | h <;>
            simp [resolveFn, hc, hcomp, h]
        · simp [resolveFn, hc, hterm, hcomp, htimer]
      · by_cases hrun : st.status = "running"
        · constructor
          · simpa [resolveFn, hc, hterm, hrun] using inv.startEq
          · simpa [resolveFn, hc, hterm, hrun] using inv.lookupsBounded
          · simp [resolveFn, hc, hterm, hrun]
          · simp [resolveFn, hc, hterm, hrun, hcf]
          · simp [resolveFn, hc, hterm, hrun, hcomp]
          · simp [resolveFn, hc, hterm, hrun, hcomp]
          · simp [resolveFn, hc, hterm, hrun, hcomp]
        · constructor
          · simpa [resolveFn, hc, hterm, hrun] using inv.startEq
          · simpa [resolveFn, hc, hterm, hrun] using inv.lookupsBounded
          · simp [resolveFn, hc, hterm, hrun]
          · simp [resolveFn, hc, hterm, hrun, hcf]
          · simp [resolveFn, hc, hterm, hrun, hcomp]
          · simp [resolveFn, hc, hterm, hrun, hcomp]
          · simp [resolveFn, hc, hterm, hrun, hcomp]
    | fails =>
      by_cases herr : opts.maxErrors ≤ s.errorCount + 1
      · constructor
        · simpa [resolveFn, hc, herr] using inv.startEq
        · simpa [resolveFn, hc, herr] using inv.lookupsBounded
        · simp [resolveFn, hc, herr, htimer]
        · simp [resolveFn, hc, herr, htimer]
        · simp [resolveFn, hc, herr, hcomp]
        · simp [resolveFn, hc, herr, hcomp]
        · simp [resolveFn, hc, herr, hcomp]
      · constructor
        · simpa [resolveFn, hc, herr] using inv.startEq
        · simpa [resolveFn, hc, herr] using inv.lookupsBounded
        · simp [resolveFn, hc, herr]
        · simp [resolveFn, hc, herr, hcf]
        · simp [resolveFn, hc, herr, hcomp]
        · simp [resolveFn, hc, herr, hcomp]
        · simp [resolveFn, hc, herr, hcomp]

lemma Inv_cancel (opts : PollerOptions) (t0 : ℚ) (s : PollerState)
    (inv : Inv opts t0 s) : Inv opts t0 (cancelFn s) := by
  constructor
  · simpa [cancelFn] using inv.startEq
  · simpa [cancelFn] using inv.lookupsBounded
  · simp [cancelFn]
  · simp [cancelFn]
  · simpa [cancelFn] using inv.completeOnce
  · simpa [cancelFn] using inv.completeTerminal
  · intro h
    simp [cancelFn] at h ⊢
    exact (inv.completeQuiesce h).2

lemma Inv_step (opts : PollerOptions) (t0 : ℚ) (s s' : PollerState)
    (inv : Inv opts t0 s) (hstep : Step opts s s') : Inv opts t0 s' := by
  cases hstep with
  | fire t hp _ => exact Inv_fire opts t0 s t inv hp
  | resolve t res hp _ => exact Inv_resolve opts t0 s t res inv hp
  | cancel => exact Inv_cancel opts t0 s inv

lemma Inv_reachable (opts : PollerOptions) (t0 : ℚ) (s : PollerState)
    (hs : Reachable opts t0 s) : Inv opts t0 s := by
  induction hs with
  | refl => exact Inv_init opts t0
  | tail _ hstep ih => exact Inv_step opts t0 _ _ ih hstep

/-- C2: every lookup a session issues is issued at a wall time whose elapsed
distance from start is at most `timeout` (the elapsed-time check precedes the
network call), and once the deadline has passed, a firing attempt issues no
lookup at all: it reports the timeout error and stops polling. -/
theorem C2_polling_stops_within_timeout (opts : PollerOptions) (t0 : ℚ)
    (s : PollerState) (hs : Reachable opts t0 s) :
    s.lookupsIssued.all (fun t => decide (t - t0 ≤ opts.timeout)) = true ∧
    ∀ t : ℚ, t - t0 > opts.timeout →
      (fireFn opts s t).lookupsIssued = s.lookupsIssued ∧
      (fireFn opts s t).isPolling = false ∧
      (fireFn opts s t).error = some "Task polling timed out" := by
  have inv := Inv_reachable opts t0 s hs
  constructor
  · rw [List.all_eq_true]
    intro t ht
    exact decide_eq_true (inv.lookupsBounded t ht)
  · intro t hgt
    have hgt' : t - s.startTime > opts.timeout := by
      rw [inv.startEq]
      exact hgt
    refine ⟨?_, ?_, ?_⟩ <;> simp [fireFn, hgt']

/-- C2 witness: after the immediate first poll at time 0 with the default
options, the issued lookup is within the timeout, and a fire at time 400000
(past the 300000 ms deadline) issues nothing, stops polling and reports the
timeout error. -/
theorem C2_polling_stops_within_timeout_witness :
    ((fireFn DEFAULTS (initState DEFAULTS 0) 0).lookupsIssued.all
        (fun t => decide (t - 0 ≤ DEFAULTS.timeout)) = true) ∧
    (fireFn DEFAULTS (fireFn DEFAULTS (initState DEFAULTS 0) 0) 400000).lookupsIssued =
      (fireFn DEFAULTS (initState DEFAULTS 0) 0).lookupsIssued ∧
    (fireFn DEFAULTS (fireFn DEFAULTS (initState DEFAULTS 0) 0) 400000).isPolling =
      false ∧
    (fireFn DEFAULTS (fireFn DEFAULTS (initState DEFAULTS 0) 0) 400000).error =
      some "Task polling timed out" := by
  have h := C2_polling_stops_within_timeout DEFAULTS 0
    (fireFn DEFAULTS (initState DEFAULTS 0) 0)
    (Relation.ReflTransGen.single (Step.fire (initState DEFAULTS 0) 0 rfl le_rfl))
  exact ⟨h.1, h.2 400000 (by norm_num [DEFAULTS])⟩

/-- C4: once a session is cancelled, no event-loop step — in particular no
previously in-flight lookup resuming, and no cleanup running again — mutates
the observable state (task, isPolling, error), fires the completion callback,
or leaves a scheduled attempt pending; a cleared timer can no longer fire at
all. -/
theorem C4_cancelled_session_inert (opts : PollerOptions) (t0 : ℚ)
    (s s' : PollerState) (hs : Reachable opts t0 s) (hc : s.cancelled = true)
    (hstep : Step opts s s') :
    s'.task = s.task ∧ s'.isPolling = s.isPolling ∧ s'.error = s.error ∧
    s'.completions = s.completions ∧ s'.timerPending = false := by
  have inv := Inv_reachable opts t0 s hs
  have htimer := inv.cancelNoTimer hc
  cases hstep with
  | fire t hp _ =>
    rw [htimer] at hp
    exact absurd hp Bool.false_ne_true
  | resolve t res hp _ =>
    refine ⟨?_, ?_, ?_, ?_, ?_⟩ <;> simp [resolveFn, hc, htimer]
  | cancel =>
    refine ⟨?_, ?_, ?_, ?_, ?_⟩ <;> simp [cancelFn]

/-- A concrete cancelled session with a lookup still in flight: the first
poll was issued at time 0 and the session was then cancelled. -/
def c4state : PollerState := cancelFn (fireFn DEFAULTS (initState DEFAULTS 0) 0)

/-- C4 witness: the in-flight lookup of the concrete cancelled session
resolves (with a failure) at time 5 without mutating task, isPolling, error
or the completion list, and leaves no timer pending. -/
theorem C4_cancelled_session_inert_witness :
    (resolveFn DEFAULTS c4state 5 .fails).task = c4state.task ∧
    (resolveFn DEFAULTS c4state 5 .fails).isPolling = c4state.isPolling ∧
    (resolveFn DEFAULTS c4state 5 .fails).error = c4state.error ∧
    (resolveFn DEFAULTS c4state 5 .fails).completions = c4state.completions ∧
    (resolveFn DEFAULTS c4state 5 .fails).timerPending = false :=
  C4_cancelled_session_inert DEFAULTS 0 c4state (resolveFn DEFAULTS c4state 5 .fails)
    ((Relation.ReflTransGen.single
        (Step.fire (initState DEFAULTS 0) 0 rfl le_rfl)).tail
      (Step.cancel (fireFn DEFAULTS (initState DEFAULTS 0) 0)))
    (by simp [c4state, cancelFn])
    (Step.resolve c4state 5 .fails
      (by norm_num [c4state, cancelFn, fireFn, initState, DEFAULTS])
      (by norm_num [c4state, cancelFn, fireFn, initState, DEFAULTS]))

/-- C5: in every reachable session state the completion callback has fired at
most once, and every status it was handed is terminal ("success" or
"failed"); since timeouts, error-budget exhaustion and cancellation never
append to the completion list, it never fires for those. -/
theorem C5_onComplete_once_only_terminal (opts : PollerOptions) (t0 : ℚ)
    (s : PollerState) (hs : Reachable opts t0 s) :
    s.completions.length ≤ 1 ∧
    s.completions.all
      (fun st => st.status == "success" || st.status == "failed") = true := by
  have inv := Inv_reachable opts t0 s hs
  exact ⟨inv.completeOnce, inv.completeTerminal⟩

/-- A concrete completed session: the first poll resolves with a terminal
"success" status. -/
def c5state : PollerState :=
  resolveFn DEFAULTS (fireFn DEFAULTS (initState DEFAULTS 0) 0) 0
    (.succeeds ⟨"success"⟩)

/-- C5 witness: the concrete completed session fired its callback once, with
a terminal status. -/
theorem C5_onComplete_once_only_terminal_witness :
    c5state.completions.length ≤ 1 ∧
    c5state.completions.all
      (fun st => st.status == "success" || st.status == "failed") = true :=
  C5_onComplete_once_only_terminal DEFAULTS 0 c5state
    ((Relation.ReflTransGen.single
        (Step.fire (initState DEFAULTS 0) 0 rfl le_rfl)).tail
      (Step.resolve (fireFn DEFAULTS (initState DEFAULTS 0) 0) 0
        (.succeeds ⟨"success"⟩)
        (by norm_num [fireFn, initState, DEFAULTS])
        (by norm_num [fireFn, initState, DEFAULTS])))

/-- One step preserves the interval bounds, provided the options are sane:
nonnegative initial interval, initial ≤ max, and a backoff factor of at
least 1. -/
lemma interval_bounds_step (opts : PollerOptions) (s s' : PollerState)
    (h0 : 0 ≤ opts.initialInterval)
    (h1 : opts.initialInterval ≤ opts.maxInterval)
    (hb : 1 ≤ opts.backoffFactor)
    (hs : opts.initialInterval ≤ s.intervalMs ∧ s.intervalMs ≤ opts.maxInterval)
    (hstep : Step opts s s') :
    opts.initialInterval ≤ s'.intervalMs ∧ s'.intervalMs ≤ opts.maxInterval := by
  have hi0 : 0 ≤ s.intervalMs := le_trans h0 hs.1
  cases hstep with
  | fire t hp ht =>
    by_cases hto : t - s.startTime > opts.timeout <;>
      simpa [fireFn, hto] using hs
  | cancel => simpa [cancelFn] using hs
  | resolve t res hp ht =>
    by_cases hc : s.cancelled = true
    · simpa [resolveFn, hc] using hs
    · cases res with
      | succeeds st =>
        by_cases hterm : st.status = "success" ∨ st.status = "failed"
        · simpa [resolveFn, hc, hterm] using hs
        · by_cases hrun : st.status = "running"
          · constructor
            · simp only [resolveFn, hc, hterm, hrun]
              simp
            · simp only [resolveFn, hc, hterm, hrun]
              refine max_le h1 ?_
              calc s.intervalMs * (4 / 5) ≤ s.intervalMs * 1 := by
                    refine mul_le_mul_of_nonneg_left ?_ hi0
                    norm_num
                _ = s.intervalMs := mul_one _
                _ ≤ opts.maxInterval := hs.2
          · simpa [resolveFn, hc, hterm, hrun] using hs
      | fails =>
        by_cases herr : opts.maxErrors ≤ s.errorCount + 1
        · simpa [resolveFn, hc, herr] using hs
        · constructor
          · simp only [resolveFn, hc, herr]
            refine le_min ?_ h1
            calc opts.initialInterval ≤ s.intervalMs := hs.1
              _ = s.intervalMs * 1 := (mul_one _).symm
              _ ≤ s.intervalMs * opts.backoffFactor :=
                  mul_le_mul_of_nonneg_left hb hi0
          · simp only [resolveFn, hc, herr]
            exact min_le_right _ _

/-- C6 (amended): for every session whose options satisfy
0 ≤ initialInterval ≤ maxInterval and backoffFactor ≥ 1, the interval stays
within [initialInterval, maxInterval] in every reachable state. -/
theorem C6_interval_bounded (opts : PollerOptions) (t0 : ℚ) (s : PollerState)
    (h0 : 0 ≤ opts.initialInterval)
    (h1 : opts.initialInterval ≤ opts.maxInterval)
    (hb : 1 ≤ opts.backoffFactor)
    (hs : Reachable opts t0 s) :
    opts.initialInterval ≤ s.intervalMs ∧ s.intervalMs ≤ opts.maxInterval := by
  induction hs with
  | refl => exact ⟨le_rfl, h1⟩
  | tail _ hstep ih => exact interval_bounds_step opts _ _ h0 h1 hb ih hstep

/-- C6 witness: with the default options the bounds hold at the start of a
session. -/
theorem C6_interval_bounded_witness :
    DEFAULTS.initialInterval ≤ (initState DEFAULTS 0).intervalMs ∧
    (initState DEFAULTS 0).intervalMs ≤ DEFAULTS.maxInterval :=
  C6_interval_bounded DEFAULTS 0 (initState DEFAULTS 0)
    (by norm_num [DEFAULTS]) (by norm_num [DEFAULTS]) (by norm_num [DEFAULTS])
    Relation.ReflTransGen.refl

/-- Options identical to the defaults except for a backoff factor below 1 —
a value nothing in the source validates against. -/
def optsHalf : PollerOptions := { DEFAULTS with backoffFactor := 1 / 2 }

/-- The session state after the first lookup of an optsHalf session fails. -/
def c6state : PollerState :=
  resolveFn optsHalf (fireFn optsHalf (initState optsHalf 0) 0) 0 .fails

/-- C6 counterexample: a session with initialInterval 1000 ≤ maxInterval
10000 but backoffFactor 1/2 reaches, after one failed lookup, an interval of
500 — strictly below initialInterval — so the claimed invariant does not
hold for every session with initialInterval ≤ maxInterval. -/
theorem C6_counterexample_small_backoff :
    optsHalf.initialInterval ≤ optsHalf.maxInterval ∧
    Reachable optsHalf 0 c6state ∧
    c6state.intervalMs < optsHalf.initialInterval := by
  refine ⟨by norm_num [optsHalf, DEFAULTS], ?_, ?_⟩
  · exact (Relation.ReflTransGen.single
        (Step.fire (initState optsHalf 0) 0 rfl le_rfl)).tail
      (Step.resolve (fireFn optsHalf (initState optsHalf 0) 0) 0 .fails
        (by norm_num [fireFn, initState, optsHalf, DEFAULTS])
        (by norm_num [fireFn, initState, optsHalf, DEFAULTS]))
  · norm_num [c6state, resolveFn, fireFn, initState, optsHalf, DEFAULTS, min_def]

/-! ## The C8 scenario: three failed lookups, then a successful one, at the
default options, all events at wall time 0. -/

/-- State after the first lookup fails. -/
def c8s1 : PollerState :=
  resolveFn DEFAULTS (fireFn DEFAULTS (initState DEFAULTS 0) 0) 0 .fails

/-- State after the second lookup fails. -/
def c8s2 : PollerState := resolveFn DEFAULTS (fireFn DEFAULTS c8s1 0) 0 .fails

/-- State after the third lookup fails. -/
def c8s3 : PollerState := resolveFn DEFAULTS (fireFn DEFAULTS c8s2 0) 0 .fails

/-- State after a fourth lookup succeeds with a non-terminal "pending"
status. -/
def c8s4 : PollerState :=
  resolveFn DEFAULTS (fireFn DEFAULTS c8s3 0) 0 (.succeeds ⟨"pending"⟩)

lemma c8_e0 : fireFn DEFAULTS (initState DEFAULTS 0) 0 =
    ⟨none, true, none, 1000, 0, 0, false, false, true, [], [0], 0⟩ := by
  norm_num [fireFn, initState, DEFAULTS]

lemma c8_e1 : c8s1 =
    ⟨none, true, none, 1500, 1, 0, false, true, false, [], [0], 0⟩ := by
  rw [c8s1, c8_e0]
  norm_num [resolveFn, DEFAULTS, min_def]

lemma c8_e1f : fireFn DEFAULTS c8s1 0 =
    ⟨none, true, none, 1500, 1, 0, false, false, true, [], [0, 0], 0⟩ := by
  rw [c8_e1]
  norm_num [fireFn, DEFAULTS]

lemma c8_e2 : c8s2 =
    ⟨none, true, none, 2250, 2, 0, false, true, false, [], [0, 0], 0⟩ := by
  rw [c8s2, c8_e1f]
  norm_num [resolveFn, DEFAULTS, min_def]

lemma c8_e2f : fireFn DEFAULTS c8s2 0 =
    ⟨none, true, none, 2250, 2, 0, false, false, true, [], [0, 0, 0], 0⟩ := by
  rw [c8_e2]
  norm_num [fireFn, DEFAULTS]

lemma c8_e3 : c8s3 =
    ⟨none, true, none, 3375, 3, 0, false, true, false, [], [0, 0, 0], 0⟩ := by
  rw [c8s3, c8_e2f]
  norm_num [resolveFn, DEFAULTS, min_def]

lemma c8_e3f : fireFn DEFAULTS c8s3 0 =
    ⟨none, true, none, 3375, 3, 0, false, false, true, [], [0, 0, 0, 0], 0⟩ := by
  rw [c8_e3]
  norm_num [fireFn, DEFAULTS]

lemma c8_e4 : c8s4 =
    ⟨some ⟨"pending"⟩, true, none, 3375, 0, 0, false, true, false, [],
      [0, 0, 0, 0], 0⟩ := by
  rw [c8s4, c8_e3f]
  norm_num [resolveFn, DEFAULTS]
  rw [if_neg (by decide : ¬("pending" = "success" ∨ "pending" = "failed")),
    if_neg (by decide : ¬"pending" = "running")]

lemma c8_reach3 : Reachable DEFAULTS 0 c8s3 := by
  refine Relation.ReflTransGen.tail (Relation.ReflTransGen.tail
    (Relation.ReflTransGen.tail (Relation.ReflTransGen.tail
      (Relation.ReflTransGen.tail (Relation.ReflTransGen.single
        (Step.fire (initState DEFAULTS 0) 0 rfl le_rfl))
        (Step.resolve (fireFn DEFAULTS (initState DEFAULTS 0) 0) 0 .fails
          (by simp [c8_e0]) (by simp [c8_e0])))
      (Step.fire c8s1 0 (by simp [c8_e1]) (by simp [c8_e1])))
    (Step.resolve (fireFn DEFAULTS c8s1 0) 0 .fails
      (by simp [c8_e1f]) (by simp [c8_e1f])))
    (Step.fire c8s2 0 (by simp [c8_e2]) (by simp [c8_e2])))
    (Step.resolve (fireFn DEFAULTS c8s2 0) 0 .fails
      (by simp [c8_e2f]) (by simp [c8_e2f]))

lemma c8_reach4 : Reachable DEFAULTS 0 c8s4 := by
  refine Relation.ReflTransGen.tail (Relation.ReflTransGen.tail c8_reach3
    (Step.fire c8s3 0 (by simp [c8_e3]) (by simp [c8_e3])))
    (Step.resolve (fireFn DEFAULTS c8s3 0) 0 (.succeeds ⟨"pending"⟩)
      (by simp [c8_e3f]) (by simp [c8_e3f]))

/-- C8 counterexample: in the claim's own scenario (defaults: initial 1000,
backoff 1.5, max 10000), after the third consecutive failed lookup the
interval is 3375 — the backoff has been applied three times — not the 2250
the claim says the interval stays at. -/
theorem C8_counterexample_third_backoff :
    Reachable DEFAULTS 0 c8s3 ∧ c8s3.intervalMs = 3375 ∧ (3375 : ℚ) ≠ 2250 := by
  refine ⟨c8_reach3, ?_, by norm_num⟩
  rw [c8_e3]

/-- C8 (amended): three consecutive failed lookups take the interval
1000 → 1500 → 2250 → 3375 (and the error count to 3); a fourth, successful
lookup resets consecutiveErrorCount to 0 while the interval stays 3375. -/
theorem C8_backoff_progression :
    c8s1.intervalMs = 1500 ∧ c8s1.errorCount = 1 ∧
    c8s2.intervalMs = 2250 ∧ c8s2.errorCount = 2 ∧
    c8s3.intervalMs = 3375 ∧ c8s3.errorCount = 3 ∧
    c8s4.errorCount = 0 ∧ c8s4.intervalMs = 3375 ∧
    Reachable DEFAULTS 0 c8s4 := by
  refine ⟨?_, ?_, ?_, ?_, ?_, ?_, ?_, ?_, c8_reach4⟩ <;>
    simp [c8_e1, c8_e2, c8_e3, c8_e4]

end Cloudtab
